import Mathlib

/-!
Verification of the crisis-detection and message-lifecycle core of the
"Voces Anónimas" anonymous messaging application (a browser app written in
JavaScript).  The definitions below are a shallow embedding of the relevant
JavaScript functions:

* `CrisisDetection.keywords`, `CrisisDetection.analyze`,
  `CrisisDetection.getRecommendation`, `CrisisDetection.adjustUrgency`
  (crisis-detection.js)
* `generateTrackingCode`, `addMessage`, `getMessageByCode`,
  `handleStudentReply` (app.js)
* `handleReplySubmit` (counselor.js)

JavaScript strings are embedded as Lean `String`s, JS arrays as `List`s.
The finite sets of urgency values and crisis levels that actually flow
through the program are embedded as inductive types.  Nondeterministic
inputs (`Math.random()`, `Date.now()`, localStorage contents) are made
explicit parameters; the unbounded retry recursion in
`generateTrackingCode` is given explicit fuel and returns `Option`.
-/

namespace Buzon

/-- Urgency values used by the submission form and the escalator:
`baja < media < alta < urgente` (ordinal scale of the spec). -/
inductive Urgency where
  | baja
  | media
  | alta
  | urgente
deriving DecidableEq, Repr

/-- Rank of an urgency on the ordinal scale baja < media < alta < urgente. -/
def urgRank : Urgency → Nat
  | Urgency.baja => 0
  | Urgency.media => 1
  | Urgency.alta => 2
  | Urgency.urgente => 3

/-- Crisis levels produced by `CrisisDetection.analyze`
(the JS strings 'none', 'moderate', 'high', 'critical'). -/
inductive CrisisLevel where
  | none
  | moderate
  | high
  | critical
deriving DecidableEq, Repr

/-- Record statuses (the JS strings 'new', 'in-review', 'responded',
'resolved'). -/
inductive Status where
  | new
  | inReview
  | responded
  | resolved
deriving DecidableEq, Repr

/-- Reply authors (the JS `from` field: 'counselor' or 'student'). -/
inductive Author where
  | counselor
  | student
deriving DecidableEq, Repr

/-- A reply object `{ from, message, timestamp }` as pushed by
`handleReplySubmit` (counselor.js) and `handleStudentReply` (app.js).
The JS field `from` is called `author` here because `from` is a Lean
keyword. -/
structure Reply where
  author : Author
  message : String
  timestamp : String
deriving DecidableEq, Repr

/-- Case folding of a JS string, `message.toLowerCase()`, embedded
per-character (ASCII case folding). -/
def jsToLower (s : String) : List Char :=
  s.toList.map Char.toLower

/-- Initial-segment check used to implement substring containment:
true iff the first list is an initial segment of the second. -/
def startsWith : List Char → List Char → Bool
  | [], _ => true
  | _ :: _, [] => false
  | a :: as, b :: bs => a == b && startsWith as bs

/-- JS `hay.includes(needle)`: substring containment on character lists. -/
def hasSubstr (needle : List Char) : List Char → Bool
  | [] => needle.isEmpty
  | c :: rest => startsWith needle (c :: rest) || hasSubstr needle rest

namespace CrisisDetection

/-- The fixed keyword table of crisis-detection.js, in `Object.entries`
(insertion) order: each entry is a category name with its keyword list. -/
def keywords : List (String × List String) :=
  [ ("suicide", ["suicidio", "suicidarme", "quitarme la vida",
      "acabar con todo", "no quiero vivir", "mejor muerto", "matarme"]),
    ("selfHarm", ["cortarme", "hacerme daño", "lastimarme", "autolesión",
      "herirme", "golpearme"]),
    ("violence", ["matar", "violencia", "arma", "pistola", "cuchillo",
      "atacar", "venganza"]),
    ("severe", ["desesperado", "sin salida", "no puedo más", "insoportable",
      "horrible", "terrible"]),
    ("death", ["muerte", "morir", "muerto", "funeral", "despedida final"]) ]

/-- The severity weight the `analyze` loop adds for a matched keyword of a
given category (the if/else-if chain at lines 32-36 of
crisis-detection.js). -/
def categoryWeight (category : String) : Nat :=
  if category = "suicide" then 10
  else if category = "selfHarm" then 8
  else if category = "violence" then 9
  else if category = "death" then 7
  else if category = "severe" then 5
  else 0

/-- Inner loop of `analyze`: scan one category's word list against the
lower-cased message, collecting `(word, category)` pairs and accumulating
the severity score. -/
def scanWords (lowerMessage : List Char) (category : String) :
    List String → List (String × String) × Nat
  | [] => ([], 0)
  | word :: rest =>
    let tail := scanWords lowerMessage category rest
    if hasSubstr word.toList lowerMessage then
      ((word, category) :: tail.1, categoryWeight category + tail.2)
    else
      tail

/-- Outer loop of `analyze`: scan every category of the keyword table. -/
def scanAll (lowerMessage : List Char) :
    List (String × List String) → List (String × String) × Nat
  | [] => ([], 0)
  | (category, words) :: rest =>
    let here := scanWords lowerMessage category words
    let tail := scanAll lowerMessage rest
    (here.1 ++ tail.1, here.2 + tail.2)

/-- The canned recommendation strings of
`CrisisDetection.getRecommendation`. -/
def getRecommendation (level : CrisisLevel) : String :=
  match level with
  | CrisisLevel.critical =>
    "ACCIÓN INMEDIATA REQUERIDA: Contactar al estudiante de inmediato. Considerar intervención de emergencia."
  | CrisisLevel.high =>
    "ALTA PRIORIDAD: Responder dentro de las próximas 2 horas. Evaluar necesidad de intervención."
  | CrisisLevel.moderate =>
    "PRIORIDAD MEDIA: Responder dentro del mismo día. Monitorear de cerca."
  | CrisisLevel.none => "Seguimiento estándar según protocolo."

/-- Result object of `CrisisDetection.analyze`. -/
structure Analysis where
  isCrisis : Bool
  crisisLevel : CrisisLevel
  severityScore : Nat
  detectedKeywords : List String
  categories : List String
  recommendation : String
deriving DecidableEq, Repr

/-- Embedding of `CrisisDetection.analyze(message)`: lower-case the message, scan the
keyword table accumulating detected `(word, category)` pairs and the
severity score, then derive the crisis level and flag by the threshold
chain (the JS sets `crisisLevel` and `isCrisis` in the same if/else-if
chain; the two are written as one chain each here).  `categories` is the
JS `[...new Set(...)]` de-duplication, which keeps first occurrences in
order. -/
def analyze (message : String) : Analysis :=
  let lowerMessage := jsToLower message
  let scanned := scanAll lowerMessage keywords
  let severityScore := scanned.2
  let crisisLevel : CrisisLevel :=
    if 10 ≤ severityScore then CrisisLevel.critical
    else if 7 ≤ severityScore then CrisisLevel.high
    else if 5 ≤ severityScore then CrisisLevel.moderate
    else CrisisLevel.none
  let isCrisis : Bool :=
    if 10 ≤ severityScore then true
    else if 7 ≤ severityScore then true
    else if 5 ≤ severityScore then true
    else false
  { isCrisis := isCrisis
    crisisLevel := crisisLevel
    severityScore := severityScore
    detectedKeywords := scanned.1.map Prod.fst
    categories := (scanned.1.map Prod.snd).eraseDups
    recommendation := getRecommendation crisisLevel }

/-- Embedding of `CrisisDetection.adjustUrgency(currentUrgency, analysis)`. -/
def adjustUrgency (currentUrgency : Urgency) (analysis : Analysis) : Urgency :=
  if analysis.crisisLevel = CrisisLevel.critical then Urgency.urgente
  else if analysis.crisisLevel = CrisisLevel.high then Urgency.alta
  else if analysis.crisisLevel = CrisisLevel.moderate ∧
      currentUrgency = Urgency.baja then Urgency.media
  else currentUrgency

end CrisisDetection

/-- A message record as assembled by `addMessage` (app.js lines 142-156).
Field for field the JS object literal: note there is a single `urgency`
field (set to the adjusted urgency); the JS `from` of replies is `author`
here. -/
structure Message where
  id : String
  trackingCode : String
  category : String
  urgency : Urgency
  message : String
  mood : String
  timestamp : String
  status : Status
  crisisDetected : Bool
  crisisLevel : CrisisLevel
  crisisKeywords : List String
  replies : List Reply
  counselorNotes : String
deriving DecidableEq, Repr

/-- The `messageData` object built by `handleMessageSubmit` (app.js) from
the form fields and passed to `addMessage`. -/
structure MessageData where
  category : String
  urgency : Urgency
  message : String
  mood : String
deriving DecidableEq, Repr

/-- The alphabet of `generateTrackingCode` (app.js line 20): the string
literal `'ABCDEFGHJKLMNPQRSTUVWXYZ23456789'`. -/
def trackingChars : List Char :=
  "ABCDEFGHJKLMNPQRSTUVWXYZ23456789".toList

/-- One candidate code: the 8-iteration loop of `generateTrackingCode`,
`chars.charAt(Math.floor(Math.random() * chars.length))` eight times.
`rand` is the stream of `Math.random()` draws, already scaled: draw `k`
yields index `rand k % trackingChars.length` (a JS draw is always a valid
index, which the modulus makes explicit).  `attempt` selects which block
of eight draws this invocation consumes. -/
def mkCode (rand : Nat → Nat) (attempt : Nat) : String :=
  String.mk ((List.range 8).map fun i =>
    trackingChars.getD (rand (8 * attempt + i) % trackingChars.length) 'A')

/-- Embedding of `generateTrackingCode()` (app.js lines 19-31): draw a candidate code
and recurse while it collides with an existing record's tracking code.
The JS recursion is unbounded; here it carries explicit `fuel` and
returns `Option.none` when the fuel runs out. -/
def generateTrackingCode (messages : List Message) (rand : Nat → Nat) :
    Nat → Nat → Option String
  | _, 0 => Option.none
  | attempt, fuel + 1 =>
    let code := mkCode rand attempt
    if messages.any fun m => m.trackingCode == code then
      generateTrackingCode messages rand (attempt + 1) fuel
    else
      some code

/-- Embedding of `addMessage(messageData)` (app.js lines 132-162): generate a tracking
code, run the crisis analysis on the body, adjust the urgency, assemble
the record and `unshift` it onto the stored collection.  `messages` is
the collection read from storage, `id`/`timestamp` the `Date.now()` /
`new Date().toISOString()` values.  Returns the new record and the saved
collection. -/
def addMessage (messages : List Message) (messageData : MessageData)
    (rand : Nat → Nat) (fuel : Nat) (id timestamp : String) :
    Option (Message × List Message) :=
  match generateTrackingCode messages rand 0 fuel with
  | Option.none => Option.none
  | some trackingCode =>
    let crisisAnalysis := CrisisDetection.analyze messageData.message
    let adjustedUrgency :=
      CrisisDetection.adjustUrgency messageData.urgency crisisAnalysis
    let newMessage : Message :=
      { id := id
        trackingCode := trackingCode
        category := messageData.category
        urgency := adjustedUrgency
        message := messageData.message
        mood := messageData.mood
        timestamp := timestamp
        status := Status.new
        crisisDetected := crisisAnalysis.isCrisis
        crisisLevel := crisisAnalysis.crisisLevel
        crisisKeywords := crisisAnalysis.detectedKeywords
        replies := []
        counselorNotes := "" }
    some (newMessage, newMessage :: messages)

/-- Per-character embedding of JS `s.toUpperCase()` (ASCII case
folding). -/
def jsToUpper (s : String) : String :=
  String.mk (s.toList.map Char.toUpper)

/-- Embedding of `getMessageByCode(code)` (app.js lines 169-172):
`messages.find(m => m.trackingCode.toUpperCase() === code.toUpperCase())`.
A miss gives `Option.none` (JS `undefined`). -/
def getMessageByCode (messages : List Message) (code : String) :
    Option Message :=
  messages.find? fun m => jsToUpper m.trackingCode == jsToUpper code

/-- The record mutation performed by `handleReplySubmit` (counselor.js
lines 381-394) on the message it found: push a counselor reply, overwrite
`counselorNotes`, and set status to `responded` if it was `new` or
`in-review`, leaving it untouched otherwise. -/
def handleReplySubmit (m : Message) (replyText notes timestamp : String) :
    Message :=
  { m with
    replies := m.replies ++
      [{ author := Author.counselor, message := replyText,
         timestamp := timestamp }]
    counselorNotes := notes
    status :=
      if m.status = Status.new ∨ m.status = Status.inReview then
        Status.responded
      else m.status }

/-- The record mutation performed by `handleStudentReply` (app.js lines
437-444) on the message it found: push a student reply and set status to
`responded` unconditionally. -/
def handleStudentReply (m : Message) (replyText timestamp : String) :
    Message :=
  { m with
    replies := m.replies ++
      [{ author := Author.student, message := replyText,
         timestamp := timestamp }]
    status := Status.responded }

/-! ### Claim-side (specification) definitions -/

/-- The flat list of `(keyword, category)` pairs of the keyword table, used
to state the scoring claim independently of the scanning loop. -/
def keywordPairs : List (String × String) :=
  CrisisDetection.keywords.flatMap fun e => e.2.map fun w => (w, e.1)

/-- The threshold table as the spec states it, highest first:
score ≥ 10 → critical, else ≥ 7 → high, else ≥ 5 → moderate, else none. -/
def levelOfScore (score : Nat) : CrisisLevel :=
  if 10 ≤ score then CrisisLevel.critical
  else if 7 ≤ score then CrisisLevel.high
  else if 5 ≤ score then CrisisLevel.moderate
  else CrisisLevel.none

/-- The escalation policy table as the spec states it (first match wins),
to be compared with `adjustUrgency`. -/
def adjustSpecTable (declared : Urgency) (level : CrisisLevel) : Urgency :=
  match level, declared with
  | CrisisLevel.critical, _ => Urgency.urgente
  | CrisisLevel.high, _ => Urgency.alta
  | CrisisLevel.moderate, Urgency.baja => Urgency.media
  | _, d => d

/-! ### Helper lemmas -/

lemma scanWords_snd (lowerMessage : List Char) (category : String) :
    ∀ words : List String,
      (CrisisDetection.scanWords lowerMessage category words).2 =
        ((words.filter fun w => hasSubstr w.toList lowerMessage).map
          fun _ => CrisisDetection.categoryWeight category).sum
  | [] => rfl
  | w :: ws => by
    cases h : hasSubstr w.data lowerMessage <;>
      simp [CrisisDetection.scanWords, List.filter_cons, h,
        scanWords_snd lowerMessage category ws, Nat.succ_mul, Nat.add_comm]

lemma scanAll_snd (lowerMessage : List Char) :
    ∀ table : List (String × List String),
      (CrisisDetection.scanAll lowerMessage table).2 =
        (((table.flatMap fun e => e.2.map fun w => (w, e.1)).filter
            fun p => hasSubstr p.1.toList lowerMessage).map
          fun p => CrisisDetection.categoryWeight p.2).sum
  | [] => rfl
  | (category, words) :: rest => by
    simp only [CrisisDetection.scanAll, List.flatMap_cons, List.filter_append,
      List.map_append, List.sum_append, scanAll_snd lowerMessage rest,
      scanWords_snd lowerMessage category words, List.filter_map, List.map_map]
    rfl

lemma isCrisis_chain_iff (s : Nat) :
    ((if 10 ≤ s then true else if 7 ≤ s then true
      else if 5 ≤ s then true else false) = true) ↔
    (if 10 ≤ s then CrisisLevel.critical else if 7 ≤ s then CrisisLevel.high
      else if 5 ≤ s then CrisisLevel.moderate else CrisisLevel.none) ≠
      CrisisLevel.none := by
  split_ifs <;> simp

/-! ### Claim theorems -/

/-- C1: for every input text, `analyze` returns a `severityScore` equal to
the sum, over every (keyword, category) pair of the fixed table whose
keyword occurs case-insensitively as a substring of the text, of that
category's weight (suicide 10, self-harm 8, violence 9, death 7,
severe 5); keywords from the same category each contribute their weight,
and each pair contributes exactly once however often it occurs. -/
theorem severityScore_eq_sum_matched_weights (message : String) :
    ((CrisisDetection.analyze message).severityScore =
      ((keywordPairs.filter
          fun p => hasSubstr p.1.toList (jsToLower message)).map
        fun p => CrisisDetection.categoryWeight p.2).sum)
    ∧ CrisisDetection.categoryWeight "suicide" = 10
    ∧ CrisisDetection.categoryWeight "selfHarm" = 8
    ∧ CrisisDetection.categoryWeight "violence" = 9
    ∧ CrisisDetection.categoryWeight "death" = 7
    ∧ CrisisDetection.categoryWeight "severe" = 5 := by
  refine ⟨?_, by decide, by decide, by decide, by decide, by decide⟩
  simpa [CrisisDetection.analyze, keywordPairs] using
    scanAll_snd (jsToLower message) CrisisDetection.keywords

/-- C2: the crisis level is determined from the severity score by the
highest-first threshold table, `isCrisis` holds iff the level is not
`none`, and the threshold table sends 10 to critical, 9 and 7 to high,
6 and 5 to moderate, and 4 to none. -/
theorem crisisLevel_thresholds (message : String) :
    (CrisisDetection.analyze message).crisisLevel =
      levelOfScore (CrisisDetection.analyze message).severityScore
    ∧ ((CrisisDetection.analyze message).isCrisis = true ↔
        (CrisisDetection.analyze message).crisisLevel ≠ CrisisLevel.none)
    ∧ levelOfScore 10 = CrisisLevel.critical
    ∧ levelOfScore 9 = CrisisLevel.high
    ∧ levelOfScore 7 = CrisisLevel.high
    ∧ levelOfScore 6 = CrisisLevel.moderate
    ∧ levelOfScore 5 = CrisisLevel.moderate
    ∧ levelOfScore 4 = CrisisLevel.none := by
  refine ⟨rfl, ?_, by decide, by decide, by decide, by decide, by decide,
    by decide⟩
  exact isCrisis_chain_iff
    (CrisisDetection.scanAll (jsToLower message) CrisisDetection.keywords).2

/-- C2 witness: the theorem instantiated at a concrete message. -/
theorem crisisLevel_thresholds_witness :
    (CrisisDetection.analyze "morir").crisisLevel =
      levelOfScore (CrisisDetection.analyze "morir").severityScore
    ∧ ((CrisisDetection.analyze "morir").isCrisis = true ↔
        (CrisisDetection.analyze "morir").crisisLevel ≠ CrisisLevel.none)
    ∧ levelOfScore 10 = CrisisLevel.critical
    ∧ levelOfScore 9 = CrisisLevel.high
    ∧ levelOfScore 7 = CrisisLevel.high
    ∧ levelOfScore 6 = CrisisLevel.moderate
    ∧ levelOfScore 5 = CrisisLevel.moderate
    ∧ levelOfScore 4 = CrisisLevel.none :=
  crisisLevel_thresholds "morir"

/-- C3: `adjustUrgency` implements exactly the ordered policy table of
the spec (critical forces urgente; else high forces alta; else moderate
with declared baja bumps to media; else the declared urgency is
returned unchanged). -/
theorem adjustUrgency_eq_policy_table (u : Urgency)
    (a : CrisisDetection.Analysis) :
    CrisisDetection.adjustUrgency u a = adjustSpecTable u a.crisisLevel := by
  rcases a with ⟨ic, lvl, s, dk, cats, rec⟩
  cases lvl <;> cases u <;> rfl

/-- C4 counterexample: with declared urgency `urgente` and the body
"morir" (one death keyword, score 7, level high), the escalator returns
`alta`, which is strictly lower than the declared urgency — escalation
does downgrade here, refuting the claimed invariant. -/
theorem escalation_downgrades_counterexample :
    CrisisDetection.adjustUrgency Urgency.urgente
        (CrisisDetection.analyze "morir") = Urgency.alta
    ∧ urgRank (CrisisDetection.adjustUrgency Urgency.urgente
        (CrisisDetection.analyze "morir")) < urgRank Urgency.urgente := by
  decide

/-- C4 (amended): the effective urgency is greater than or equal to the
declared urgency on the scale baja < media < alta < urgente, except in
the single case of a `high` classification with declared `urgente`. -/
theorem escalation_never_downgrades_unless_high_urgente (u : Urgency)
    (a : CrisisDetection.Analysis)
    (h : ¬(a.crisisLevel = CrisisLevel.high ∧ u = Urgency.urgente)) :
    urgRank u ≤ urgRank (CrisisDetection.adjustUrgency u a) := by
  rcases a with ⟨ic, lvl, s, dk, cats, rec⟩
  revert h
  cases lvl <;> cases u <;>
    simp [CrisisDetection.adjustUrgency, urgRank]

/-- C4 witness: the amended theorem applied at declared `baja` and the
non-crisis body "hola". -/
theorem escalation_never_downgrades_witness :
    ¬((CrisisDetection.analyze "hola").crisisLevel = CrisisLevel.high
        ∧ Urgency.baja = Urgency.urgente)
    ∧ urgRank Urgency.baja ≤ urgRank (CrisisDetection.adjustUrgency
        Urgency.baja (CrisisDetection.analyze "hola")) :=
  ⟨by decide, escalation_never_downgrades_unless_high_urgente Urgency.baja
    (CrisisDetection.analyze "hola") (by decide)⟩

/-- C5: `adjustUrgency` yields an urgency strictly lower than the declared
one exactly when the classification level is `high` and the declared
urgency is `urgente`, and in that case it yields `alta`. -/
theorem adjustUrgency_downgrade_characterisation (u : Urgency)
    (a : CrisisDetection.Analysis) :
    (urgRank (CrisisDetection.adjustUrgency u a) < urgRank u ↔
      a.crisisLevel = CrisisLevel.high ∧ u = Urgency.urgente)
    ∧ (a.crisisLevel = CrisisLevel.high ∧ u = Urgency.urgente →
      CrisisDetection.adjustUrgency u a = Urgency.alta) := by
  rcases a with ⟨ic, lvl, s, dk, cats, rec⟩
  cases lvl <;> cases u <;>
    simp [CrisisDetection.adjustUrgency, urgRank]

/-- C5 witness: the theorem at declared `urgente` and the body "morir",
which classifies as `high`. -/
theorem adjustUrgency_downgrade_witness :
    (urgRank (CrisisDetection.adjustUrgency Urgency.urgente
        (CrisisDetection.analyze "morir")) < urgRank Urgency.urgente ↔
      (CrisisDetection.analyze "morir").crisisLevel = CrisisLevel.high
        ∧ Urgency.urgente = Urgency.urgente)
    ∧ ((CrisisDetection.analyze "morir").crisisLevel = CrisisLevel.high
        ∧ Urgency.urgente = Urgency.urgente →
      CrisisDetection.adjustUrgency Urgency.urgente
        (CrisisDetection.analyze "morir") = Urgency.alta) :=
  adjustUrgency_downgrade_characterisation Urgency.urgente
    (CrisisDetection.analyze "morir")

/-- C6 counterexample: on "me siento desesperado y quiero matarme" the
violence keyword "matar" also matches (as a substring of "matarme"), so
the severity score is 24, not 15, and the detected keyword list is not
just desesperado and matarme. -/
theorem example_scenario_score_counterexample :
    (CrisisDetection.analyze
        "me siento desesperado y quiero matarme").severityScore = 24
    ∧ (24 : Nat) ≠ 15
    ∧ (CrisisDetection.analyze
        "me siento desesperado y quiero matarme").detectedKeywords =
      ["matarme", "matar", "desesperado"] := by
  decide

/-- C6 (amended): the example text matches desesperado (severe, +5),
matarme (suicide, +10) and also matar (violence, +9, a substring match
inside "matarme"), yielding severity score 24, level critical, isCrisis
true; with declared urgency baja the adjusted urgency is urgente. -/
theorem example_scenario_analysis :
    (CrisisDetection.analyze
        "me siento desesperado y quiero matarme").severityScore = 24
    ∧ (CrisisDetection.analyze
        "me siento desesperado y quiero matarme").crisisLevel =
      CrisisLevel.critical
    ∧ (CrisisDetection.analyze
        "me siento desesperado y quiero matarme").isCrisis = true
    ∧ (CrisisDetection.analyze
        "me siento desesperado y quiero matarme").detectedKeywords =
      ["matarme", "matar", "desesperado"]
    ∧ CrisisDetection.adjustUrgency Urgency.baja
        (CrisisDetection.analyze "me siento desesperado y quiero matarme") =
      Urgency.urgente := by
  decide

/-- A concrete record used to instantiate theorems with hypotheses.  Its
field values match what `addMessage` produces for the non-crisis body
"hola" with the all-zero random stream. -/
def sampleMessage (trackingCode : String) (status : Status) : Message :=
  { id := "1"
    trackingCode := trackingCode
    category := "otro"
    urgency := Urgency.media
    message := "hola"
    mood := "feliz"
    timestamp := "t"
    status := status
    crisisDetected := false
    crisisLevel := CrisisLevel.none
    crisisKeywords := []
    replies := []
    counselorNotes := "" }

lemma getD_mem {α : Type} :
    ∀ (l : List α) (n : Nat) (d : α), n < l.length → l.getD n d ∈ l
  | [], _, _, h => by simp at h
  | a :: l, 0, d, _ => by simp [List.getD_cons_zero]
  | a :: l, n + 1, d, h => by
    rw [List.getD_cons_succ]
    exact List.mem_cons_of_mem a (getD_mem l n d (by simpa using h))

lemma mkCode_length (rand : Nat → Nat) (attempt : Nat) :
    (mkCode rand attempt).length = 8 := by
  simp [mkCode, String.length]

lemma mkCode_chars (rand : Nat → Nat) (attempt : Nat) :
    ∀ c ∈ (mkCode rand attempt).toList, c ∈ trackingChars := by
  intro c hc
  simp only [mkCode, String.toList] at hc
  obtain ⟨i, _, rfl⟩ := List.mem_map.mp hc
  exact getD_mem trackingChars _ 'A' (Nat.mod_lt _ (by decide))

/-- C7 counterexample: with declared urgency `baja` and body "matarme"
(a critical classification), the record produced by `addMessage` carries
`urgente` in its single urgency field; the declared value `baja` is not
stored anywhere in the record (the `Message` shape has no
declared-urgency field). -/
theorem create_does_not_store_declared_urgency :
    ((addMessage []
        { category := "ansiedad", urgency := Urgency.baja,
          message := "matarme", mood := "triste" }
        (fun _ => 0) 1 "1" "t").map fun p => p.1.urgency) =
      some Urgency.urgente
    ∧ Urgency.urgente ≠ Urgency.baja := by
  decide

/-- C7 (amended): every record returned by `addMessage` has status `new`,
an empty reply list and empty counselor notes, carries the submitted
category, body and mood, stores as its (single) urgency field the
effective urgency — the escalator applied to the declared urgency and
the classifier's analysis of the body — snapshots the classifier's
diagnostic fields from that same analysis, and is persisted at the front
of the stored collection. -/
theorem create_record_fields (messages : List Message)
    (messageData : MessageData) (rand : Nat → Nat) (fuel : Nat)
    (id timestamp : String) (m : Message) (saved : List Message)
    (h : addMessage messages messageData rand fuel id timestamp =
      some (m, saved)) :
    m.status = Status.new ∧ m.replies = [] ∧ m.counselorNotes = ""
    ∧ m.urgency = CrisisDetection.adjustUrgency messageData.urgency
        (CrisisDetection.analyze messageData.message)
    ∧ m.crisisDetected = (CrisisDetection.analyze messageData.message).isCrisis
    ∧ m.crisisLevel = (CrisisDetection.analyze messageData.message).crisisLevel
    ∧ m.crisisKeywords =
        (CrisisDetection.analyze messageData.message).detectedKeywords
    ∧ m.category = messageData.category ∧ m.message = messageData.message
    ∧ m.mood = messageData.mood ∧ m.id = id ∧ m.timestamp = timestamp
    ∧ saved = m :: messages := by
  cases hg : generateTrackingCode messages rand 0 fuel with
  | none => simp [addMessage, hg] at h
  | some code =>
    simp only [addMessage, hg, Option.some.injEq, Prod.mk.injEq] at h
    obtain ⟨hm, hs⟩ := h
    subst hm
    subst hs
    simp

/-- C7 witness: the amended theorem applied to a concrete submission with
body "hola" (no crisis, declared urgency kept). -/
theorem create_record_fields_witness :
    (sampleMessage "AAAAAAAA" Status.new).status = Status.new
    ∧ (sampleMessage "AAAAAAAA" Status.new).replies = []
    ∧ (sampleMessage "AAAAAAAA" Status.new).counselorNotes = ""
    ∧ (sampleMessage "AAAAAAAA" Status.new).urgency =
        CrisisDetection.adjustUrgency
          (MessageData.mk "otro" Urgency.media "hola" "feliz").urgency
          (CrisisDetection.analyze
            (MessageData.mk "otro" Urgency.media "hola" "feliz").message)
    ∧ (sampleMessage "AAAAAAAA" Status.new).crisisDetected =
        (CrisisDetection.analyze
          (MessageData.mk "otro" Urgency.media "hola" "feliz").message).isCrisis
    ∧ (sampleMessage "AAAAAAAA" Status.new).crisisLevel =
        (CrisisDetection.analyze
          (MessageData.mk "otro" Urgency.media "hola" "feliz").message).crisisLevel
    ∧ (sampleMessage "AAAAAAAA" Status.new).crisisKeywords =
        (CrisisDetection.analyze
          (MessageData.mk "otro" Urgency.media "hola" "feliz").message).detectedKeywords
    ∧ (sampleMessage "AAAAAAAA" Status.new).category =
        (MessageData.mk "otro" Urgency.media "hola" "feliz").category
    ∧ (sampleMessage "AAAAAAAA" Status.new).message =
        (MessageData.mk "otro" Urgency.media "hola" "feliz").message
    ∧ (sampleMessage "AAAAAAAA" Status.new).mood =
        (MessageData.mk "otro" Urgency.media "hola" "feliz").mood
    ∧ (sampleMessage "AAAAAAAA" Status.new).id = "1"
    ∧ (sampleMessage "AAAAAAAA" Status.new).timestamp = "t"
    ∧ [sampleMessage "AAAAAAAA" Status.new] =
        sampleMessage "AAAAAAAA" Status.new :: [] :=
  create_record_fields [] (MessageData.mk "otro" Urgency.media "hola" "feliz")
    (fun _ => 0) 1 "1" "t" (sampleMessage "AAAAAAAA" Status.new)
    [sampleMessage "AAAAAAAA" Status.new] (by decide)

/-- C8: a counselor reply moves the status to `responded` from `new` or
`in-review` and leaves `responded`/`resolved` unchanged; a submitter
reply forces `responded` from every state; both append the reply at the
end of the reply list, leaving every earlier reply untouched. -/
theorem reply_status_transitions (m : Message)
    (replyText notes timestamp : String) :
    ((m.status = Status.new ∨ m.status = Status.inReview) →
      (handleReplySubmit m replyText notes timestamp).status =
        Status.responded)
    ∧ ((m.status = Status.responded ∨ m.status = Status.resolved) →
      (handleReplySubmit m replyText notes timestamp).status = m.status)
    ∧ (handleStudentReply m replyText timestamp).status = Status.responded
    ∧ (handleReplySubmit m replyText notes timestamp).replies =
        m.replies ++ [Reply.mk Author.counselor replyText timestamp]
    ∧ (handleStudentReply m replyText timestamp).replies =
        m.replies ++ [Reply.mk Author.student replyText timestamp] := by
  cases hst : m.status <;>
    simp [handleReplySubmit, handleStudentReply, hst]

/-- C8 witness: the theorem at a concrete record whose status is `new`. -/
theorem reply_status_transitions_witness :
    (((sampleMessage "X" Status.new).status = Status.new ∨
        (sampleMessage "X" Status.new).status = Status.inReview) →
      (handleReplySubmit (sampleMessage "X" Status.new) "r" "n" "t2").status =
        Status.responded)
    ∧ (((sampleMessage "X" Status.new).status = Status.responded ∨
        (sampleMessage "X" Status.new).status = Status.resolved) →
      (handleReplySubmit (sampleMessage "X" Status.new) "r" "n" "t2").status =
        (sampleMessage "X" Status.new).status)
    ∧ (handleStudentReply (sampleMessage "X" Status.new) "r" "t2").status =
        Status.responded
    ∧ (handleReplySubmit (sampleMessage "X" Status.new) "r" "n" "t2").replies =
        (sampleMessage "X" Status.new).replies ++
          [Reply.mk Author.counselor "r" "t2"]
    ∧ (handleStudentReply (sampleMessage "X" Status.new) "r" "t2").replies =
        (sampleMessage "X" Status.new).replies ++
          [Reply.mk Author.student "r" "t2"] :=
  reply_status_transitions (sampleMessage "X" Status.new) "r" "n" "t2"

/-- C9 counterexample: the tracking-code alphabet has 32 characters, not
33, so the code space has 32^8 possibilities, not 33^8 as claimed. -/
theorem tracking_alphabet_size_counterexample :
    trackingChars.length = 32
    ∧ 'I' ∉ trackingChars ∧ 'O' ∉ trackingChars
    ∧ '0' ∉ trackingChars ∧ '1' ∉ trackingChars
    ∧ (32 : Nat) ^ 8 ≠ 33 ^ 8 := by
  decide

/-- C9 (amended): every code returned by the generator is exactly 8
characters long, each drawn from the 32-character alphabet that excludes
the ambiguous I, O, 0 and 1 (code space 32^8), and differs from the
tracking code of every existing record; collisions are retried, not
surfaced as an error. -/
theorem tracking_code_properties :
    ∀ (fuel attempt : Nat) (messages : List Message) (rand : Nat → Nat)
      (code : String),
      generateTrackingCode messages rand attempt fuel = some code →
      code.length = 8 ∧ (∀ c ∈ code.toList, c ∈ trackingChars)
      ∧ ∀ m ∈ messages, m.trackingCode ≠ code
  | 0, attempt, messages, rand, code => by
    intro h
    simp [generateTrackingCode] at h
  | fuel + 1, attempt, messages, rand, code => by
    intro h
    rw [generateTrackingCode] at h
    by_cases hc : (messages.any fun m => m.trackingCode == mkCode rand attempt) = true
    · rw [if_pos hc] at h
      exact tracking_code_properties fuel (attempt + 1) messages rand code h
    · rw [if_neg hc] at h
      injection h with h'
      subst h'
      refine ⟨mkCode_length rand attempt, mkCode_chars rand attempt, ?_⟩
      intro m hm heq
      exact hc (List.any_eq_true.mpr ⟨m, hm, by simp [heq]⟩)

/-- C9 witness: the theorem at an empty record collection and the
all-zero random stream, which produces the code "AAAAAAAA". -/
theorem tracking_code_properties_witness :
    ("AAAAAAAA" : String).length = 8
    ∧ (∀ c ∈ ("AAAAAAAA" : String).toList, c ∈ trackingChars)
    ∧ ∀ m ∈ ([] : List Message), m.trackingCode ≠ "AAAAAAAA" :=
  tracking_code_properties 1 0 [] (fun _ => 0) "AAAAAAAA" (by decide)

/-- C10: lookup by tracking code is total: it returns an absent result
exactly when no stored tracking code matches the query
case-insensitively, and any record it returns is a stored record whose
tracking code matches the query case-insensitively. -/
theorem lookup_by_code (messages : List Message) (code : String) :
    (getMessageByCode messages code = Option.none →
      ∀ m ∈ messages, jsToUpper m.trackingCode ≠ jsToUpper code)
    ∧ ∀ m, getMessageByCode messages code = some m →
      m ∈ messages ∧ jsToUpper m.trackingCode = jsToUpper code := by
  constructor
  · intro h m hm
    rw [getMessageByCode, List.find?_eq_none] at h
    simpa using h m hm
  · intro m h
    rw [getMessageByCode] at h
    refine ⟨List.mem_of_find?_eq_some h, ?_⟩
    simpa using List.find?_some h

/-- C10 witness: the theorem at a single stored record with code "abc"
and the query "ABC", which match case-insensitively. -/
theorem lookup_by_code_witness :
    sampleMessage "abc" Status.new ∈ [sampleMessage "abc" Status.new]
    ∧ jsToUpper (sampleMessage "abc" Status.new).trackingCode =
        jsToUpper "ABC" :=
  (lookup_by_code [sampleMessage "abc" Status.new] "ABC").2
    (sampleMessage "abc" Status.new) (by decide)

end Buzon
